import Mathlib

/-!
Verification development for the priory p2p node (src/priory/src).

The definitions below are shallow embeddings of the Rust source:

- Multiaddr and PeerId are opaque external libp2p types; the node only ever
  compares them for equality, prints them and parses them, so both are
  modelled by their canonical string forms.  Message payloads travel as
  UTF-8 text (the relay-discovery protocol is an ASCII line protocol), so
  the from_utf8_lossy decoding step is modelled as the identity on strings,
  and parsing a printed PeerId or Multiaddr back is modelled as the
  identity as well.
- usize values are modelled as Nat; where an addition could wrap in release
  builds the modulus 2^64 is written explicitly.
- panics (unwrap on an Err), channel closure and the non-exhaustive command
  match are represented by explicit result constructors.

Definitions whose names match source symbols (find_ipv4,
compare_relay_lists, bootstrap, handle_message, exec_swarm_command, mesh_n,
mesh_n_low, mesh_n_high, add_relay, stringify_relays_multiaddr, ...) are
transcriptions of the corresponding Rust items; definitions whose names
start with spec_ are written from the natural-language specification's
wording, to be compared with the transcriptions.
-/

namespace Priory

/-! ## Core data model -/

/-- Peer: a pair of a multiaddress and a peer identity (lib.rs, struct
    Peer).  Equality is componentwise, matching the derived
    PartialEq/Eq/Hash on the Rust struct. -/
structure Peer where
  multiaddr : String
  peer_id : String
deriving DecidableEq, Repr

/-- The constant WANT_RELAY_FOR_PREFIX from lib.rs. -/
def wantRelayForPfx : String := "WANT RELAY FOR "

/-- The constant I_HAVE_RELAYS_PREFIX from lib.rs. -/
def iHaveRelaysPfx : String := "I HAVE RELAYS "

/-- The constant RELAY_SERVER_PROTOCOL_ID from event_handler.rs. -/
def relayServerProtocolId : String := "/libp2p/circuit/relay/0.2.0/hop"

/-- Rust str::strip_prefix, modelled on the char level: when s starts with
    p, the remainder of s after p, otherwise none. -/
def stripPfx (s p : String) : Option String :=
  if p.data.isPrefixOf s.data then some (String.mk (s.data.drop p.data.length)) else none

/-- Rust str::split with a one-character pattern, on char lists: splits at
    every occurrence of the separator, keeping empty segments (so the
    result is always non-empty). -/
def splitOnChar (sep : Char) : List Char → List (List Char)
  | [] => [[]]
  | c :: cs =>
      if c = sep then [] :: splitOnChar sep cs
      else
        match splitOnChar sep cs with
        | [] => [[c]]
        | part :: parts => (c :: part) :: parts

/-- Rust str::split(" ") as used on relay-discovery message bodies. -/
def splitSpaces (s : String) : List String :=
  (splitOnChar ' ' s.data).map String.mk

/-- Rust str::trim: drop whitespace from both ends. -/
def trimStr (s : String) : String :=
  String.mk (((s.data.dropWhile Char.isWhitespace).reverse.dropWhile Char.isWhitespace).reverse)

/-- find_ipv4 (lib.rs): split the printed multiaddress on "/", locate the
    first segment equal to "ip4", and return the segment after it. -/
def find_ipv4 (multiaddr_str : String) : Option String :=
  match ((splitOnChar '/' multiaddr_str.data).map String.mk).findIdx?
      (fun part => part = "ip4") with
  | some index => ((splitOnChar '/' multiaddr_str.data).map String.mk).get? (index + 1)
  | none => none

/-! ## Configuration (config.rs) -/

/-- GossipsubConnections (config.rs): target number of gossipsub mesh
    connections with lower and upper tolerances.  The Rust fields are
    usize; they are modelled as Nat. -/
structure GossipsubConnections where
  target_num : Nat
  lower_tolerance : Nat
  upper_tolerance : Nat
deriving DecidableEq, Repr

/-- mesh_n (config.rs): the target number of connections. -/
def GossipsubConnections.mesh_n (c : GossipsubConnections) : Nat :=
  c.target_num

/-- mesh_n_low (config.rs): 0 when lower_tolerance exceeds target_num,
    otherwise target_num - lower_tolerance (the subtraction cannot
    underflow under the guard). -/
def GossipsubConnections.mesh_n_low (c : GossipsubConnections) : Nat :=
  if c.lower_tolerance > c.target_num then 0 else c.target_num - c.lower_tolerance

/-- mesh_n_high (config.rs): target_num + upper_tolerance.  The usize
    addition is taken modulo 2^64 (release-build wrap semantics); every
    configuration the program can build comes from TOML, whose integers fit
    in i64, so the sum stays below 2^64 and the modulus is the identity. -/
def GossipsubConnections.mesh_n_high (c : GossipsubConnections) : Nat :=
  (c.target_num + c.upper_tolerance) % 2 ^ 64

/-- The default GossipsubConnections (6, 1, 6) from config.rs. -/
def defaultGossipsubConnections : GossipsubConnections :=
  ⟨6, 1, 6⟩

/-- Config (config.rs): the recognized options.  secret_key_seed is a u8,
    port a u16; both modelled as Nat. -/
structure Config where
  peers : List Peer
  secret_key_seed : Nat
  is_relay : Bool
  port : Nat
  num_gossipsub_connections : GossipsubConnections
deriving DecidableEq, Repr

/-! ## Node state (lib.rs, struct P2pNode)

The swarm itself is the external provider; the provider-owned views the
query commands read (connected peers, mesh peers, Kademlia table) are
carried as explicit fields, alongside the node-owned topic, config and
relay set.  P2pNode::init builds the state with an empty relay set. -/

structure P2pNode where
  topic : String
  cfg : Config
  relays : List Peer
  localPeerId : String
  connectedPeers : List String
  meshPeers : List String
  kademliaEntries : List (String × List String)
deriving DecidableEq, Repr

/-- add_relay (lib.rs): HashSet insert on the relay set, modelled on a
    duplicate-free list. -/
def add_relay (node : P2pNode) (relay : Peer) : P2pNode :=
  { node with relays := if relay ∈ node.relays then node.relays else relay :: node.relays }

/-- Boundary model of kad::Behaviour::add_address on the provider-owned
    routing table view. -/
def kad_add_address (entries : List (String × List String)) (peer_id multiaddr : String) :
    List (String × List String) :=
  if entries.any (fun e => e.1 = peer_id) then
    entries.map (fun e =>
      if e.1 = peer_id then (e.1, if multiaddr ∈ e.2 then e.2 else e.2 ++ [multiaddr]) else e)
  else entries ++ [(peer_id, [multiaddr])]

/-! ## Swarm commands (swarm_client.rs) and their execution (lib.rs) -/

/-- SwarmCommand (swarm_client.rs): the command variants.  Reply slots are
    not carried here; exec_swarm_command returns the value the runtime
    sends on the slot, when it sends one. -/
inductive SwarmCommand where
  | gossipsubPublish (data : String)
  | dial (multiaddr : String)
  | myRelays
  | connectedPeers
  | gossipsubMeshPeers
  | kademliaRoutingTablePeers
  | myPeerId
deriving DecidableEq, Repr

/-- The value the runtime sends on a query command's one-shot reply slot. -/
inductive SwarmReply where
  | relays (rs : List Peer)
  | peers (ps : List String)
  | meshPeers (ps : List String)
  | routingTable (entries : List (String × List String))
deriving DecidableEq, Repr

/-- Environment choices made by the external swarm provider while a command
    executes: whether gossipsub publish returns Ok (publishOk = false
    models an Err such as InsufficientPeers) and whether Swarm::dial
    returns Ok. -/
structure SwarmEnv where
  publishOk : Bool
  dialOk : Bool
deriving DecidableEq, Repr

/-- Result of executing one SwarmCommand on the runtime task. -/
inductive ExecResult where
  /-- The arm completed; the node state afterwards and the reply sent on
      the command's reply slot, if any. -/
  | ok (node : P2pNode) (reply : Option SwarmReply)
  /-- The arm panicked (an unwrap on an Err). -/
  | panicked
  /-- No arm exists for the command: the match in exec_swarm_command
      (lib.rs lines 283-336) has arms for GossipsubPublish, Dial, MyRelays,
      ConnectedPeers, GossipsubMeshPeers and KademliaRoutingTablePeers
      only; the MyPeerId variant of the SwarmCommand enum
      (swarm_client.rs line 112) is absent, so the match is non-exhaustive
      and the runtime never sends the MyPeerId reply. -/
  | unhandled
deriving DecidableEq, Repr

/-- exec_swarm_command (lib.rs lines 280-339).  The GossipsubPublish and
    Dial arms call .unwrap() on the provider result, so a provider error
    panics the runtime task.  The four query arms send a snapshot of the
    corresponding state on the reply slot and leave the node state
    unchanged (MyRelays clones the relay set).  There is no MyPeerId
    arm in the source. -/
def exec_swarm_command (env : SwarmEnv) (node : P2pNode) (command : SwarmCommand) :
    ExecResult :=
  match command with
  | SwarmCommand.gossipsubPublish _data =>
      if env.publishOk then ExecResult.ok node none else ExecResult.panicked
  | SwarmCommand.dial _multiaddr =>
      if env.dialOk then ExecResult.ok node none else ExecResult.panicked
  | SwarmCommand.myRelays =>
      ExecResult.ok node (some (SwarmReply.relays node.relays))
  | SwarmCommand.connectedPeers =>
      ExecResult.ok node (some (SwarmReply.peers node.connectedPeers))
  | SwarmCommand.gossipsubMeshPeers =>
      ExecResult.ok node (some (SwarmReply.meshPeers node.meshPeers))
  | SwarmCommand.kademliaRoutingTablePeers =>
      ExecResult.ok node (some (SwarmReply.routingTable node.kademliaEntries))
  | SwarmCommand.myPeerId => ExecResult.unhandled

/-! ## Common event handler (event_handler.rs) -/

/-- The provider events, as classified by handle_common_event. -/
inductive NodeEvent where
  | newListenAddr (address : String)
  | connectionEstablished (peer_id : String) (endpoint_addr : String)
  | outgoingConnectionError
  | incomingConnectionError
  | connectionClosed (peer_id : String)
  | identifySent
  | identifyReceived (peer_id : String) (observed_addr : String)
      (listen_addrs : List String) (protocols : List String)
  | mdnsDiscovered (peer_ids : List String)
  | mdnsExpired (peer_ids : List String)
  | gossipsubMessage (source : String) (data : String)
  | gossipsubSubscribed (peer_id : String)
  | kadBootstrapTimeout (peer : String)
  | dcutrEvent (remote_peer_id : String) (ok : Bool)
  | otherEvent
deriving DecidableEq, Repr

/-- Externally visible effects of one pass of the common handler: peer ids
    sent on the hole-punch request channel, gossip messages published, and
    peers dialed. -/
structure CommonEffects where
  holepunch_requests : List String
  published : List String
  dialed : List String
deriving DecidableEq, Repr

/-- No effects. -/
def noEffects : CommonEffects := ⟨[], [], []⟩

/-- stringify_relays_multiaddr (event_handler.rs): fold the relay set into
    a space-separated string (each step prepends "multiaddr " to the
    accumulator) and trim the result. -/
def stringify_relays_multiaddr (relays : List Peer) : String :=
  trimStr (relays.foldl (fun acc relay_peer => relay_peer.multiaddr ++ " " ++ acc) "")

/-- handle_message (event_handler.rs lines 273-307): on a gossip message
    "WANT RELAY FOR <id>" naming this node's own peer id, build and publish
    the response "I HAVE RELAYS <id> <relays>"; any other message publishes
    nothing.  Returns the published response, if any (a publish error is
    logged with warn and not propagated, so it does not affect state). -/
def handle_message (node : P2pNode) (data : String) : Option String :=
  match stripPfx data wantRelayForPfx with
  | some target_peer_id =>
      if node.localPeerId = target_peer_id then
        some (iHaveRelaysPfx ++ node.localPeerId ++ " " ++
          stringify_relays_multiaddr node.relays)
      else none
  | none => none

/-- The relay-set ingress in the IdentifyReceived arm of
    handle_common_event (event_handler.rs lines 120-144): for each
    advertised protocol equal to the relay hop protocol id, for each listen
    address, skip it when its IPv4 component is 127.0.0.1 and otherwise
    insert (listen address, peer id) into the relay set. -/
def relays_from_identify (node : P2pNode) (peer_id : String)
    (listen_addrs protocols : List String) : P2pNode :=
  protocols.foldl
    (fun n protocol =>
      if protocol = relayServerProtocolId then
        listen_addrs.foldl
          (fun n2 relay_multiaddr =>
            if find_ipv4 relay_multiaddr = some "127.0.0.1" then n2
            else add_relay n2 ⟨relay_multiaddr, peer_id⟩)
          n
      else n)
    node

/-- handle_common_event (event_handler.rs lines 45-269): the state change
    and externally visible effects of one provider event. -/
def handle_common_event (node : P2pNode) (ev : NodeEvent) : P2pNode × CommonEffects :=
  match ev with
  | NodeEvent.newListenAddr _ => (node, noEffects)
  | NodeEvent.connectionEstablished peer_id endpoint_addr =>
      ({ node with
          kademliaEntries := kad_add_address node.kademliaEntries peer_id endpoint_addr },
        noEffects)
  | NodeEvent.outgoingConnectionError => (node, noEffects)
  | NodeEvent.incomingConnectionError => (node, noEffects)
  | NodeEvent.connectionClosed _ => (node, noEffects)
  | NodeEvent.identifySent => (node, noEffects)
  | NodeEvent.identifyReceived peer_id _observed listen_addrs protocols =>
      let node2 := relays_from_identify node peer_id listen_addrs protocols
      ({ node2 with
          kademliaEntries :=
            listen_addrs.foldl (fun es a => kad_add_address es peer_id a)
              node2.kademliaEntries },
        noEffects)
  | NodeEvent.mdnsDiscovered peer_ids => (node, { noEffects with dialed := peer_ids })
  | NodeEvent.mdnsExpired _ => (node, noEffects)
  | NodeEvent.gossipsubMessage _src data =>
      (node, { noEffects with published := (handle_message node data).toList })
  | NodeEvent.gossipsubSubscribed _ => (node, noEffects)
  | NodeEvent.kadBootstrapTimeout peer =>
      (node, { noEffects with holepunch_requests := [peer] })
  | NodeEvent.dcutrEvent _ _ => (node, noEffects)
  | NodeEvent.otherEvent => (node, noEffects)

/-- One step of the runtime's main selection loop: execute a command (on a
    panic or an unhandled command the state is not mutated) or handle a
    provider event. -/
inductive NodeStep where
  | command (env : SwarmEnv) (c : SwarmCommand)
  | event (ev : NodeEvent)
deriving DecidableEq, Repr

/-- Apply one NodeStep to the node state. -/
def node_step (node : P2pNode) (s : NodeStep) : P2pNode :=
  match s with
  | NodeStep.command env c =>
      match exec_swarm_command env node c with
      | ExecResult.ok n _ => n
      | ExecResult.panicked => node
      | ExecResult.unhandled => node
  | NodeStep.event ev => (handle_common_event node ev).1

/-- Run the main loop over a list of steps. -/
def run_node (node : P2pNode) (steps : List NodeStep) : P2pNode :=
  steps.foldl node_step node

/-! ## Bootstrap task (bootstrap.rs) -/

/-- BootstrapEvent (bootstrap.rs): the two swarm events the bootstrap task
    consumes, as translated by BootstrapEvent::try_from_swarm_event. -/
inductive BootstrapEvent where
  | connectionEstablished (peer_id : String)
  | outgoingConnectionError
deriving DecidableEq, Repr

/-- The inner wait loop of bootstrap (bootstrap.rs lines 60-80): after
    dialing a configured peer, receive bootstrap events until either a
    ConnectionEstablished whose peer_id equals the configured peer's id
    (success, true) or an OutgoingConnectionError (failure, false).
    Returns the outcome together with the unconsumed events; none models
    the event channel closing mid-wait (the recv context error). -/
def bootstrap_wait_for_dial (peer : Peer) :
    List BootstrapEvent → Option (Bool × List BootstrapEvent)
  | [] => none
  | BootstrapEvent.connectionEstablished pid :: rest =>
      if pid = peer.peer_id then some (true, rest) else bootstrap_wait_for_dial peer rest
  | BootstrapEvent.outgoingConnectionError :: rest => some (false, rest)

/-- The for-loop of bootstrap over cfg.peers (bootstrap.rs lines 47-81):
    dial each configured peer in order, then run the wait loop.  Returns
    the dialed multiaddresses in submission order, the failed_to_dial peers
    in the order they were pushed, and the unconsumed events; none models
    the event channel closing mid-wait. -/
def bootstrap_dial_loop :
    List Peer → List BootstrapEvent →
      Option (List String × List Peer × List BootstrapEvent)
  | [], evs => some ([], [], evs)
  | peer :: restPeers, evs =>
      match bootstrap_wait_for_dial peer evs with
      | none => none
      | some (ok, evs2) =>
          match bootstrap_dial_loop restPeers evs2 with
          | none => none
          | some (dials, failed_to_dial, evs3) =>
              some (peer.multiaddr :: dials,
                    (if ok then failed_to_dial else peer :: failed_to_dial), evs3)

/-- Outcome of one run of the bootstrap task (bootstrap.rs lines 34-103). -/
inductive BootstrapResult where
  /-- The event channel closed mid-wait (recv returned none). -/
  | channelClosed
  /-- The panic "Couldn't connect to any address listed as a peer in the
      config." (bootstrap.rs lines 84-87). -/
  | fatal
  /-- Normal completion; the argument lists the peer ids sent on the
      hole-punch request channel, in order (bootstrap.rs lines 93-100). -/
  | ok (holepunch_requests : List String)
deriving DecidableEq, Repr

/-- bootstrap (bootstrap.rs): run the dial loop over the configured peers,
    panic when every dial failed and the configured list is non-empty, and
    otherwise send each failed peer's id to the hole-punch request channel
    in the order queued. -/
def bootstrap (cfgPeers : List Peer) (evs : List BootstrapEvent) : BootstrapResult :=
  match bootstrap_dial_loop cfgPeers evs with
  | none => BootstrapResult.channelClosed
  | some (_, failed_to_dial, _) =>
      if failed_to_dial.length = cfgPeers.length ∧ cfgPeers ≠ [] then
        BootstrapResult.fatal
      else
        BootstrapResult.ok (failed_to_dial.map (fun peer => peer.peer_id))

/-- Written from the spec: an event decides the wait for a configured peer
    when it is a ConnectionEstablished carrying that peer's id, or any
    OutgoingConnectionError. -/
def spec_bootstrap_decides (peer : Peer) (ev : BootstrapEvent) : Bool :=
  match ev with
  | BootstrapEvent.connectionEstablished pid => pid = peer.peer_id
  | BootstrapEvent.outgoingConnectionError => true

/-- Written from the spec: the wait after a dial is decided by the first
    deciding event; it succeeds exactly when that event is a
    ConnectionEstablished (necessarily with the configured peer's id). -/
def spec_bootstrap_wait (peer : Peer) (evs : List BootstrapEvent) :
    Option (Bool × List BootstrapEvent) :=
  match evs.dropWhile (fun ev => !spec_bootstrap_decides peer ev) with
  | [] => none
  | BootstrapEvent.connectionEstablished _ :: rest => some (true, rest)
  | BootstrapEvent.outgoingConnectionError :: rest => some (false, rest)

/-- Written from the spec: process the configured peers in configured
    order, resolving each dial with spec_bootstrap_wait. -/
def spec_bootstrap_dial_loop :
    List Peer → List BootstrapEvent →
      Option (List String × List Peer × List BootstrapEvent)
  | [], evs => some ([], [], evs)
  | peer :: restPeers, evs =>
      match spec_bootstrap_wait peer evs with
      | none => none
      | some (ok, evs2) =>
          match spec_bootstrap_dial_loop restPeers evs2 with
          | none => none
          | some (dials, failed_to_dial, evs3) =>
              some (peer.multiaddr :: dials,
                    (if ok then failed_to_dial else peer :: failed_to_dial), evs3)

/-! ## Hole-punch coordinator (holepuncher.rs) -/

/-- HolepunchEvent (holepuncher.rs): the swarm events the hole-punch task
    consumes, as translated by HolepunchEvent::try_from_swarm_event. -/
inductive HolepunchEvent where
  | gossipsubMessage (data : String)
  | identifySent
  | identifyReceived
  | dcutrConnectionSuccessful (remote_peer_id : String)
  | dcutrConnectionFailed (remote_peer_id : String)
  | connectionEstablished
  | outgoingConnectionError
deriving DecidableEq, Repr

/-- The candidate-relay collection in holepunch (holepuncher.rs lines
    123-135): the message parts after the peer id, with every address
    whose IPv4 component is 127.0.0.1 skipped.  (Parsing each kept part
    back into a Multiaddr is modelled as the identity.) -/
def collect_possible_relays (parts : List String) : List String :=
  (parts.drop 1).filter (fun multiaddr_str => !(find_ipv4 multiaddr_str == some "127.0.0.1"))

/-- Outcome of the wait-for-relay-response loop in holepunch
    (holepuncher.rs lines 95-142). -/
inductive HolepunchWaitResult where
  /-- The event channel closed mid-wait (recv returned none). -/
  | channelClosed
  /-- The early return Ok(()) at holepuncher.rs lines 108-111: an
      I HAVE RELAYS message whose body splits into at most one part ended
      the current hole-punch search with no success. -/
  | noRelaysAbort
  /-- The break at holepuncher.rs line 138: an I HAVE RELAYS message named
      the target and listed at least one address; the collected candidate
      relays and the unconsumed events. -/
  | responded (possible_relays : List String) (rest : List HolepunchEvent)
deriving DecidableEq, Repr

/-- The wait-for-relay-response loop in holepunch (holepuncher.rs lines
    95-142): receive hole-punch events; on a gossip message starting with
    the I HAVE RELAYS marker, return with no success when the remainder
    splits into at most one part (before any peer-id comparison), break
    with the collected relays when the first part equals the target peer
    id, and keep waiting otherwise; all other events are ignored. -/
def holepunch_wait_response (target_peer_id : String) :
    List HolepunchEvent → HolepunchWaitResult
  | [] => HolepunchWaitResult.channelClosed
  | HolepunchEvent.gossipsubMessage data :: rest =>
      match stripPfx data iHaveRelaysPfx with
      | none => holepunch_wait_response target_peer_id rest
      | some str =>
          if (splitSpaces str).length ≤ 1 then HolepunchWaitResult.noRelaysAbort
          else
            match splitSpaces str with
            | [] => HolepunchWaitResult.channelClosed
            | first :: _ =>
                if first = target_peer_id then
                  HolepunchWaitResult.responded
                    (collect_possible_relays (splitSpaces str)) rest
                else holepunch_wait_response target_peer_id rest
  | _ :: rest => holepunch_wait_response target_peer_id rest

/-- Written from the amended claim: an event decides the wait when it is an
    I HAVE RELAYS gossip message that either lists no relay addresses
    (at most one part, whichever peer it names) or whose first part is the
    target peer id with at least one address after it. -/
def spec_hp_decides (target_peer_id : String) (ev : HolepunchEvent) : Bool :=
  match ev with
  | HolepunchEvent.gossipsubMessage data =>
      match stripPfx data iHaveRelaysPfx with
      | none => false
      | some str =>
          decide ((splitSpaces str).length ≤ 1) ||
            (decide (2 ≤ (splitSpaces str).length) &&
              ((splitSpaces str).head? == some target_peer_id))
  | _ => false

/-- Written from the amended claim: the wait is decided by the first
    deciding event; it ends the search with no success exactly when that
    event lists no relay addresses, and otherwise ends the wait with the
    filtered candidate relays. -/
def spec_holepunch_wait (target_peer_id : String) (evs : List HolepunchEvent) :
    HolepunchWaitResult :=
  match evs.dropWhile (fun ev => !spec_hp_decides target_peer_id ev) with
  | [] => HolepunchWaitResult.channelClosed
  | HolepunchEvent.gossipsubMessage data :: rest =>
      match stripPfx data iHaveRelaysPfx with
      | none => HolepunchWaitResult.channelClosed
      | some str =>
          if (splitSpaces str).length ≤ 1 then HolepunchWaitResult.noRelaysAbort
          else
            HolepunchWaitResult.responded (collect_possible_relays (splitSpaces str)) rest
  | _ :: _ => HolepunchWaitResult.channelClosed

/-- The HashMap keyed on multiaddress built by compare_relay_lists
    (holepuncher.rs lines 279-282): collecting (multiaddr, peer) pairs
    into a map lets a later pair with the same key overwrite an earlier
    one, so lookup returns the last matching peer in iteration order. -/
def relay_map_get (my_relays : List Peer) (multiaddr : String) : Option Peer :=
  my_relays.foldl
    (fun acc peer => if peer.multiaddr = multiaddr then some peer else acc) none

/-- compare_relay_lists (holepuncher.rs lines 272-294): partition the
    responded relay list into common relays (address present in the local
    relay set, keeping the local Peer) and relays to dial (the rest),
    preserving the order of the responded list. -/
def compare_relay_lists (my_relays : List Peer) :
    List String → List Peer × List String
  | [] => ([], [])
  | multiaddr :: rest =>
      let result := compare_relay_lists my_relays rest
      match relay_map_get my_relays multiaddr with
      | some peer => (peer :: result.1, result.2)
      | none => (result.1, multiaddr :: result.2)

end Priory

namespace Priory

/-! ## Bootstrap refinement lemmas -/

/-- The source wait loop equals the spec's first-deciding-event wait. -/
theorem bootstrap_wait_eq_spec (peer : Peer) :
    ∀ evs : List BootstrapEvent,
      bootstrap_wait_for_dial peer evs = spec_bootstrap_wait peer evs := by
  intro evs
  induction evs with
  | nil => rfl
  | cons ev rest ih =>
      cases ev with
      | connectionEstablished pid =>
          by_cases h : pid = peer.peer_id
          · simp [bootstrap_wait_for_dial, spec_bootstrap_wait, spec_bootstrap_decides,
              List.dropWhile_cons, h]
          · simpa [bootstrap_wait_for_dial, spec_bootstrap_wait, spec_bootstrap_decides,
              List.dropWhile_cons, h] using ih
      | outgoingConnectionError =>
          simp [bootstrap_wait_for_dial, spec_bootstrap_wait, spec_bootstrap_decides,
            List.dropWhile_cons]

/-- The source dial loop equals the spec dial loop. -/
theorem bootstrap_dial_loop_eq_spec :
    ∀ (peers : List Peer) (evs : List BootstrapEvent),
      bootstrap_dial_loop peers evs = spec_bootstrap_dial_loop peers evs := by
  intro peers
  induction peers with
  | nil => intro evs; rfl
  | cons peer restPeers ih =>
      intro evs
      simp only [bootstrap_dial_loop, spec_bootstrap_dial_loop,
        bootstrap_wait_eq_spec peer evs]
      cases spec_bootstrap_wait peer evs with
      | none => rfl
      | some res => simp only [ih res.2]

/-- The failed peers are a sublist (order-preserving subset) of the
    configured peers, and the dials are exactly the configured
    multiaddresses in configured order. -/
theorem bootstrap_dial_loop_shape :
    ∀ (peers : List Peer) (evs : List BootstrapEvent)
      (dials : List String) (failed : List Peer) (rest : List BootstrapEvent),
      bootstrap_dial_loop peers evs = some (dials, failed, rest) →
      dials = peers.map (fun peer => peer.multiaddr) ∧ failed.Sublist peers := by
  intro peers
  induction peers with
  | nil =>
      intro evs dials failed rest h
      simp only [bootstrap_dial_loop, Option.some.injEq, Prod.mk.injEq] at h
      refine ⟨?_, ?_⟩ <;> simp_all
  | cons peer restPeers ih =>
      intro evs dials failed rest h
      simp only [bootstrap_dial_loop] at h
      split at h
      · exact Option.noConfusion h
      · rename_i ok evs2 hw
        split at h
        · exact Option.noConfusion h
        · rename_i dials2 failed2 evs3 hl
          simp only [Option.some.injEq, Prod.mk.injEq] at h
          obtain ⟨h1, h2, _⟩ := h
          obtain ⟨ihd, ihs⟩ := ih evs2 dials2 failed2 evs3 hl
          constructor
          · rw [← h1, ihd]; rfl
          · rw [← h2]
            cases ok with
            | true => simpa using ihs.cons peer
            | false => simpa using ihs.cons₂ peer

/-! ## Claim theorems -/

/-- C9: for every GossipsubConnections configuration (every configuration
    the program can build has both fields within the i64 range enforced by
    the TOML parser, whence the two bounds), mesh_n is target_num,
    mesh_n_low is max 0 (target_num - lower_tolerance) over the integers
    (so 0 whenever lower_tolerance >= target_num), mesh_n_high is
    target_num + upper_tolerance, and mesh_n_low <= mesh_n <= mesh_n_high. -/
theorem gossipsub_connections_mesh_bounds (c : GossipsubConnections)
    (ht : c.target_num < 2 ^ 63) (hu : c.upper_tolerance < 2 ^ 63) :
    c.mesh_n = c.target_num ∧
    (c.mesh_n_low : Int) = max 0 ((c.target_num : Int) - (c.lower_tolerance : Int)) ∧
    (c.lower_tolerance ≥ c.target_num → c.mesh_n_low = 0) ∧
    c.mesh_n_high = c.target_num + c.upper_tolerance ∧
    c.mesh_n_low ≤ c.mesh_n ∧ c.mesh_n ≤ c.mesh_n_high := by
  have hsum : c.target_num + c.upper_tolerance < 2 ^ 64 := by
    have : (2 : Nat) ^ 63 + 2 ^ 63 = 2 ^ 64 := by norm_num
    omega
  have hhigh : c.mesh_n_high = c.target_num + c.upper_tolerance := by
    unfold GossipsubConnections.mesh_n_high
    exact Nat.mod_eq_of_lt hsum
  refine ⟨rfl, ?_, ?_, hhigh, ?_, ?_⟩
  · unfold GossipsubConnections.mesh_n_low
    by_cases h : c.lower_tolerance > c.target_num
    · rw [if_pos h]
      have : (c.target_num : Int) - (c.lower_tolerance : Int) ≤ 0 := by
        omega
      simp [max_eq_left this]
    · rw [if_neg h]
      push_neg at h
      have := Nat.cast_sub (R := Int) h
      omega
  · intro hge
    unfold GossipsubConnections.mesh_n_low
    by_cases h : c.lower_tolerance > c.target_num
    · rw [if_pos h]
    · rw [if_neg h]
      omega
  · unfold GossipsubConnections.mesh_n_low GossipsubConnections.mesh_n
    by_cases h : c.lower_tolerance > c.target_num
    · rw [if_pos h]; exact Nat.zero_le _
    · rw [if_neg h]; omega
  · rw [hhigh]
    unfold GossipsubConnections.mesh_n
    omega

/-- Witness for C9 at the default configuration (6, 1, 6). -/
theorem gossipsub_connections_mesh_bounds_witness :
    defaultGossipsubConnections.mesh_n = 6 ∧
    defaultGossipsubConnections.mesh_n_low = 5 ∧
    defaultGossipsubConnections.mesh_n_high = 12 ∧
    defaultGossipsubConnections.mesh_n_low ≤ defaultGossipsubConnections.mesh_n := by
  have h := gossipsub_connections_mesh_bounds defaultGossipsubConnections
    (by norm_num [defaultGossipsubConnections]) (by norm_num [defaultGossipsubConnections])
  exact ⟨by decide, by decide, by decide, h.2.2.2.2.1⟩

/-- C3: the bootstrap task dials each configured peer in configured order
    (the dials are exactly the configured multiaddresses, in order); each
    dial is resolved by the first subsequent ConnectionEstablished whose
    peer_id equals the configured peer's id (success) or
    OutgoingConnectionError (peer queued), as stated by the equality with
    the spec-side dial loop built on the first-deciding-event wait; the
    queued peers are a subsequence of the configured list (queued in
    configured order); and when not every dial failed, the task completes
    by sending exactly the queued peers' ids to the hole-punch request
    channel, in the order queued. -/
theorem bootstrap_dials_and_requests (peers : List Peer) (evs : List BootstrapEvent)
    (dials : List String) (failed : List Peer) (rest : List BootstrapEvent)
    (h : bootstrap_dial_loop peers evs = some (dials, failed, rest)) :
    dials = peers.map (fun peer => peer.multiaddr) ∧
    spec_bootstrap_dial_loop peers evs = some (dials, failed, rest) ∧
    failed.Sublist peers ∧
    (failed.length ≠ peers.length →
      bootstrap peers evs = BootstrapResult.ok (failed.map (fun peer => peer.peer_id))) := by
  obtain ⟨hd, hs⟩ := bootstrap_dial_loop_shape peers evs dials failed rest h
  refine ⟨hd, ?_, hs, ?_⟩
  · rw [← bootstrap_dial_loop_eq_spec]; exact h
  · intro hne
    unfold bootstrap
    rw [h]
    exact if_neg (fun hc => hne hc.1)

/-- Witness for C3: two configured peers, the first dial fails, the second
    succeeds; the hole-punch request channel receives exactly the first
    peer's id. -/
theorem bootstrap_dials_and_requests_witness :
    bootstrap
        [⟨"/ip4/1.2.3.4/tcp/4021", "PA"⟩, ⟨"/ip4/5.6.7.8/tcp/4021", "PB"⟩]
        [BootstrapEvent.outgoingConnectionError,
          BootstrapEvent.connectionEstablished "PB"] =
      BootstrapResult.ok ["PA"] :=
  (bootstrap_dials_and_requests
      [⟨"/ip4/1.2.3.4/tcp/4021", "PA"⟩, ⟨"/ip4/5.6.7.8/tcp/4021", "PB"⟩]
      [BootstrapEvent.outgoingConnectionError,
        BootstrapEvent.connectionEstablished "PB"]
      ["/ip4/1.2.3.4/tcp/4021", "/ip4/5.6.7.8/tcp/4021"]
      [⟨"/ip4/1.2.3.4/tcp/4021", "PA"⟩] []
      (by decide)).2.2.2 (by decide)

/-- C4: when the configured peer list is non-empty and every configured
    dial failed, the bootstrap task raises the fatal error (the panic at
    bootstrap.rs lines 84-87); with an empty configured peer list the task
    completes normally with no fatal error and no hole-punch requests. -/
theorem bootstrap_fatal_condition (peers : List Peer) (evs : List BootstrapEvent) :
    (peers = [] → bootstrap peers evs = BootstrapResult.ok []) ∧
    (∀ dials failed rest,
      bootstrap_dial_loop peers evs = some (dials, failed, rest) →
      failed.length = peers.length → peers ≠ [] →
      bootstrap peers evs = BootstrapResult.fatal) := by
  constructor
  · intro hempty
    subst hempty
    simp [bootstrap, bootstrap_dial_loop]
  · intro dials failed rest h hlen hne
    unfold bootstrap
    rw [h]
    simp only [if_pos (And.intro hlen hne)]

/-- Witness for C4: an empty configured list completes normally, and a
    single unreachable configured peer is fatal. -/
theorem bootstrap_fatal_condition_witness :
    bootstrap [] [] = BootstrapResult.ok [] ∧
    bootstrap [⟨"/ip4/1.2.3.4/tcp/4021", "PA"⟩]
        [BootstrapEvent.outgoingConnectionError] =
      BootstrapResult.fatal :=
  ⟨(bootstrap_fatal_condition [] []).1 rfl,
    (bootstrap_fatal_condition [⟨"/ip4/1.2.3.4/tcp/4021", "PA"⟩]
        [BootstrapEvent.outgoingConnectionError]).2
      ["/ip4/1.2.3.4/tcp/4021"] [⟨"/ip4/1.2.3.4/tcp/4021", "PA"⟩] []
      (by decide) (by decide) (by decide)⟩

/-- C1 (code_bug): a GossipsubPublish command whose publish fails (for
    example with InsufficientPeers) makes the runtime panic through the
    unwrap at lib.rs line 292, instead of the logged-warning-and-continue
    behavior the claim states; only a successful publish lets the runtime
    continue.  The claim fails on the code as written. -/
theorem gossipsub_publish_error_panics (env : SwarmEnv) (node : P2pNode)
    (data : String) (h : env.publishOk = false) :
    exec_swarm_command env node (SwarmCommand.gossipsubPublish data) =
      ExecResult.panicked ∧
    (∀ env2 : SwarmEnv, env2.publishOk = true →
      exec_swarm_command env2 node (SwarmCommand.gossipsubPublish data) =
        ExecResult.ok node none) := by
  constructor
  · simp [exec_swarm_command, h]
  · intro env2 h2
    simp [exec_swarm_command, h2]

/-- Witness for C1, at a concrete node and a failing publish. -/
theorem gossipsub_publish_error_panics_witness :
    exec_swarm_command ⟨false, true⟩
        ⟨"test-net", ⟨[], 1, true, 4021, ⟨6, 1, 6⟩⟩, [], "A", [], [], []⟩
        (SwarmCommand.gossipsubPublish "hello") = ExecResult.panicked :=
  (gossipsub_publish_error_panics ⟨false, true⟩
      ⟨"test-net", ⟨[], 1, true, 4021, ⟨6, 1, 6⟩⟩, [], "A", [], [], []⟩
      "hello" rfl).1

/-- C2 (code_bug): the runtime never consumes a MyPeerId command's reply
    slot: the match in exec_swarm_command (lib.rs lines 283-336) has no arm
    for the MyPeerId variant that SwarmClient::my_peer_id submits
    (swarm_client.rs lines 74-82), so no reply carrying the node's peer
    identity is ever sent and the claim fails on the code as written. -/
theorem my_peer_id_command_unhandled (env : SwarmEnv) (node : P2pNode) :
    exec_swarm_command env node SwarmCommand.myPeerId = ExecResult.unhandled :=
  rfl

/-- C10: each of the four query commands leaves the node state (in
    particular its relay set, topic and config) unchanged and replies with
    a snapshot of the queried view taken at execution time; the MyRelays
    reply carries the relay-set value itself (the clone at lib.rs line
    300), so a later add_relay produces a different relay list while the
    returned snapshot keeps its value. -/
theorem query_commands_frame (env : SwarmEnv) (node : P2pNode) :
    exec_swarm_command env node SwarmCommand.myRelays =
      ExecResult.ok node (some (SwarmReply.relays node.relays)) ∧
    exec_swarm_command env node SwarmCommand.connectedPeers =
      ExecResult.ok node (some (SwarmReply.peers node.connectedPeers)) ∧
    exec_swarm_command env node SwarmCommand.gossipsubMeshPeers =
      ExecResult.ok node (some (SwarmReply.meshPeers node.meshPeers)) ∧
    exec_swarm_command env node SwarmCommand.kademliaRoutingTablePeers =
      ExecResult.ok node (some (SwarmReply.routingTable node.kademliaEntries)) ∧
    (∀ p : Peer, p ∉ node.relays → (add_relay node p).relays ≠ node.relays) := by
  refine ⟨rfl, rfl, rfl, rfl, ?_⟩
  intro p hp
  simp only [add_relay, if_neg hp]
  intro hcontra
  simpa using congrArg List.length hcontra

/-- Witness for C10: at a concrete node, the MyRelays reply is the empty
    snapshot and adding a relay afterwards changes the state's relay list
    but not the snapshot value. -/
theorem query_commands_frame_witness :
    exec_swarm_command ⟨true, true⟩
        ⟨"test-net", ⟨[], 1, true, 4021, ⟨6, 1, 6⟩⟩, [], "A", [], [], []⟩
        SwarmCommand.myRelays =
      ExecResult.ok
        ⟨"test-net", ⟨[], 1, true, 4021, ⟨6, 1, 6⟩⟩, [], "A", [], [], []⟩
        (some (SwarmReply.relays [])) ∧
    (add_relay ⟨"test-net", ⟨[], 1, true, 4021, ⟨6, 1, 6⟩⟩, [], "A", [], [], []⟩
        ⟨"/ip4/9.9.9.9/tcp/4021", "R"⟩).relays ≠ [] :=
  ⟨(query_commands_frame ⟨true, true⟩
      ⟨"test-net", ⟨[], 1, true, 4021, ⟨6, 1, 6⟩⟩, [], "A", [], [], []⟩).1,
    (query_commands_frame ⟨true, true⟩
      ⟨"test-net", ⟨[], 1, true, 4021, ⟨6, 1, 6⟩⟩, [], "A", [], [], []⟩).2.2.2.2
      ⟨"/ip4/9.9.9.9/tcp/4021", "R"⟩ (by decide)⟩

/-- A non-deciding event is skipped by the spec-side wait. -/
theorem spec_holepunch_wait_cons (target_peer_id : String) (ev : HolepunchEvent)
    (rest : List HolepunchEvent) (h : spec_hp_decides target_peer_id ev = false) :
    spec_holepunch_wait target_peer_id (ev :: rest) =
      spec_holepunch_wait target_peer_id rest := by
  unfold spec_holepunch_wait
  rw [List.dropWhile_cons]
  simp [h]

/-- C5 counterexample: while waiting for a relay response for target "T",
    an I HAVE RELAYS message naming a different peer "X" with no relay
    addresses ends the current hole-punch search with no success (the
    early return at holepuncher.rs lines 108-111 fires before the peer-id
    comparison), contradicting the claim that a no-relay response about a
    different peer does not end the search. -/
theorem holepunch_wait_other_peer_aborts :
    holepunch_wait_response "T"
        [HolepunchEvent.gossipsubMessage "I HAVE RELAYS X"] =
      HolepunchWaitResult.noRelaysAbort ∧
    "X" ≠ "T" := by
  constructor
  · decide
  · decide

/-- C5 (amended): the wait-for-relay-response loop consumes hole-punch
    events until the first I HAVE RELAYS gossip message that either lists
    no relay addresses after the marker (whichever peer id it names) or
    starts with the target's peer id and lists at least one address; it
    ends the current hole-punch search with no success exactly when that
    deciding message lists no relay addresses, and otherwise ends the wait
    with the candidate relays collected after the loopback filter.  Stated
    as equality with the spec-side first-deciding-event formulation. -/
theorem holepunch_wait_matches_spec (target_peer_id : String)
    (evs : List HolepunchEvent) :
    holepunch_wait_response target_peer_id evs =
      spec_holepunch_wait target_peer_id evs := by
  induction evs with
  | nil => rfl
  | cons ev rest ih =>
      cases ev with
      | gossipsubMessage data =>
          cases hstrip : stripPfx data iHaveRelaysPfx with
          | none =>
              have hdec : spec_hp_decides target_peer_id
                  (HolepunchEvent.gossipsubMessage data) = false := by
                simp [spec_hp_decides, hstrip]
              rw [spec_holepunch_wait_cons target_peer_id _ rest hdec]
              simp only [holepunch_wait_response, hstrip]
              exact ih
          | some str =>
              by_cases hlen : (splitSpaces str).length ≤ 1
              · have hdec : spec_hp_decides target_peer_id
                    (HolepunchEvent.gossipsubMessage data) = true := by
                  simp [spec_hp_decides, hstrip, hlen]
                have hspec : spec_holepunch_wait target_peer_id
                    (HolepunchEvent.gossipsubMessage data :: rest) =
                      HolepunchWaitResult.noRelaysAbort := by
                  unfold spec_holepunch_wait
                  rw [List.dropWhile_cons]
                  simp [hdec, hstrip, hlen]
                rw [hspec]
                simp only [holepunch_wait_response, hstrip]
                rw [if_pos hlen]
              · cases hsplit : splitSpaces str with
                | nil => rw [hsplit] at hlen; simp at hlen
                | cons first ps =>
                    have hps : 1 ≤ ps.length := by
                      rw [hsplit] at hlen
                      simp only [List.length_cons] at hlen
                      omega
                    have hne : ps ≠ [] := by
                      intro hh
                      rw [hh] at hps
                      simp at hps
                    by_cases hfirst : first = target_peer_id
                    · have hdec : spec_hp_decides target_peer_id
                          (HolepunchEvent.gossipsubMessage data) = true := by
                        simp [spec_hp_decides, hstrip, hsplit, hfirst, hps, hne]
                      have hspec : spec_holepunch_wait target_peer_id
                          (HolepunchEvent.gossipsubMessage data :: rest) =
                            HolepunchWaitResult.responded
                              (collect_possible_relays (splitSpaces str)) rest := by
                        unfold spec_holepunch_wait
                        rw [List.dropWhile_cons]
                        simp [hdec, hstrip, hlen]
                      rw [hspec]
                      simp only [holepunch_wait_response, hstrip]
                      rw [if_neg hlen]
                      simp only [hsplit]
                      rw [if_pos hfirst]
                    · have hdec : spec_hp_decides target_peer_id
                          (HolepunchEvent.gossipsubMessage data) = false := by
                        simp [spec_hp_decides, hstrip, hsplit, hlen, hfirst, hps, hne]
                      rw [spec_holepunch_wait_cons target_peer_id _ rest hdec]
                      simp only [holepunch_wait_response, hstrip]
                      rw [if_neg hlen]
                      simp only [hsplit]
                      rw [if_neg hfirst]
                      exact ih
      | identifySent =>
          rw [spec_holepunch_wait_cons target_peer_id HolepunchEvent.identifySent rest rfl]
          simpa only [holepunch_wait_response] using ih
      | identifyReceived =>
          rw [spec_holepunch_wait_cons target_peer_id HolepunchEvent.identifyReceived rest rfl]
          simpa only [holepunch_wait_response] using ih
      | dcutrConnectionSuccessful remote_peer_id =>
          rw [spec_holepunch_wait_cons target_peer_id
            (HolepunchEvent.dcutrConnectionSuccessful remote_peer_id) rest rfl]
          simpa only [holepunch_wait_response] using ih
      | dcutrConnectionFailed remote_peer_id =>
          rw [spec_holepunch_wait_cons target_peer_id
            (HolepunchEvent.dcutrConnectionFailed remote_peer_id) rest rfl]
          simpa only [holepunch_wait_response] using ih
      | connectionEstablished =>
          rw [spec_holepunch_wait_cons target_peer_id
            HolepunchEvent.connectionEstablished rest rfl]
          simpa only [holepunch_wait_response] using ih
      | outgoingConnectionError =>
          rw [spec_holepunch_wait_cons target_peer_id
            HolepunchEvent.outgoingConnectionError rest rfl]
          simpa only [holepunch_wait_response] using ih

/-- add_relay preserves the loopback-free property of the relay set when
    the inserted peer is loopback-free. -/
theorem add_relay_preserves_loopback_free (node : P2pNode) (p : Peer)
    (hn : ∀ q ∈ node.relays, find_ipv4 q.multiaddr ≠ some "127.0.0.1")
    (hp : find_ipv4 p.multiaddr ≠ some "127.0.0.1") :
    ∀ q ∈ (add_relay node p).relays, find_ipv4 q.multiaddr ≠ some "127.0.0.1" := by
  intro q hq
  simp only [add_relay] at hq
  by_cases hmem : p ∈ node.relays
  · rw [if_pos hmem] at hq
    exact hn q hq
  · rw [if_neg hmem] at hq
    rcases List.mem_cons.mp hq with hqp | hq2
    · rw [hqp]; exact hp
    · exact hn q hq2

/-- The inner fold of the identify ingress (over listen addresses)
    preserves the loopback-free property: every inserted address passes
    the 127.0.0.1 filter. -/
theorem identify_addr_fold_preserves_loopback_free :
    ∀ (listen_addrs : List String) (node : P2pNode) (peer_id : String),
      (∀ q ∈ node.relays, find_ipv4 q.multiaddr ≠ some "127.0.0.1") →
      ∀ q ∈ (listen_addrs.foldl
          (fun n2 relay_multiaddr =>
            if find_ipv4 relay_multiaddr = some "127.0.0.1" then n2
            else add_relay n2 ⟨relay_multiaddr, peer_id⟩)
          node).relays,
        find_ipv4 q.multiaddr ≠ some "127.0.0.1" := by
  intro listen_addrs
  induction listen_addrs with
  | nil => intro node peer_id hn; exact hn
  | cons a rest ih =>
      intro node peer_id hn
      simp only [List.foldl_cons]
      by_cases ha : find_ipv4 a = some "127.0.0.1"
      · rw [if_pos ha]
        exact ih node peer_id hn
      · rw [if_neg ha]
        exact ih (add_relay node ⟨a, peer_id⟩) peer_id
          (add_relay_preserves_loopback_free node ⟨a, peer_id⟩ hn ha)

/-- The identify-event relay ingress preserves the loopback-free property. -/
theorem relays_from_identify_preserves_loopback_free :
    ∀ (protocols listen_addrs : List String) (node : P2pNode) (peer_id : String),
      (∀ q ∈ node.relays, find_ipv4 q.multiaddr ≠ some "127.0.0.1") →
      ∀ q ∈ (relays_from_identify node peer_id listen_addrs protocols).relays,
        find_ipv4 q.multiaddr ≠ some "127.0.0.1" := by
  intro protocols
  induction protocols with
  | nil => intro listen_addrs node peer_id hn; exact hn
  | cons protocol rest ih =>
      intro listen_addrs node peer_id hn
      simp only [relays_from_identify, List.foldl_cons]
      by_cases hproto : protocol = relayServerProtocolId
      · rw [if_pos hproto]
        exact ih listen_addrs _ peer_id
          (identify_addr_fold_preserves_loopback_free listen_addrs node peer_id hn)
      · rw [if_neg hproto]
        exact ih listen_addrs node peer_id hn

/-- The common event handler preserves the loopback-free property of the
    relay set (only the identify ingress touches it). -/
theorem handle_common_event_preserves_loopback_free (node : P2pNode) (ev : NodeEvent)
    (hn : ∀ q ∈ node.relays, find_ipv4 q.multiaddr ≠ some "127.0.0.1") :
    ∀ q ∈ (handle_common_event node ev).1.relays,
      find_ipv4 q.multiaddr ≠ some "127.0.0.1" := by
  cases ev with
  | identifyReceived peer_id observed listen_addrs protocols =>
      simpa only [handle_common_event] using
        relays_from_identify_preserves_loopback_free protocols listen_addrs node peer_id hn
  | newListenAddr address => exact hn
  | connectionEstablished peer_id endpoint_addr => exact hn
  | outgoingConnectionError => exact hn
  | incomingConnectionError => exact hn
  | connectionClosed peer_id => exact hn
  | identifySent => exact hn
  | mdnsDiscovered peer_ids => exact hn
  | mdnsExpired peer_ids => exact hn
  | gossipsubMessage source data => exact hn
  | gossipsubSubscribed peer_id => exact hn
  | kadBootstrapTimeout peer => exact hn
  | dcutrEvent remote_peer_id ok => exact hn
  | otherEvent => exact hn

/-- One main-loop step preserves the loopback-free property (commands never
    insert relays). -/
theorem node_step_preserves_loopback_free (node : P2pNode) (s : NodeStep)
    (hn : ∀ q ∈ node.relays, find_ipv4 q.multiaddr ≠ some "127.0.0.1") :
    ∀ q ∈ (node_step node s).relays, find_ipv4 q.multiaddr ≠ some "127.0.0.1" := by
  cases s with
  | command env c =>
      cases c with
      | gossipsubPublish data =>
          cases h : env.publishOk <;> simpa [node_step, exec_swarm_command, h] using hn
      | dial multiaddr =>
          cases h : env.dialOk <;> simpa [node_step, exec_swarm_command, h] using hn
      | myRelays => exact hn
      | connectedPeers => exact hn
      | gossipsubMeshPeers => exact hn
      | kademliaRoutingTablePeers => exact hn
      | myPeerId => exact hn
  | event ev => exact handle_common_event_preserves_loopback_free node ev hn

/-- Running the main loop preserves the loopback-free property. -/
theorem run_node_preserves_loopback_free :
    ∀ (steps : List NodeStep) (node : P2pNode),
      (∀ q ∈ node.relays, find_ipv4 q.multiaddr ≠ some "127.0.0.1") →
      ∀ q ∈ (run_node node steps).relays, find_ipv4 q.multiaddr ≠ some "127.0.0.1" := by
  intro steps
  induction steps with
  | nil => intro node hn; exact hn
  | cons s rest ih =>
      intro node hn
      simp only [run_node, List.foldl_cons]
      exact ih (node_step node s) (node_step_preserves_loopback_free node s hn)

/-- C7: starting from the initial state (P2pNode::init creates an empty
    relay set), in every state reachable by commands and events, every
    Peer in the relay set has a multiaddress whose IPv4 component is not
    127.0.0.1 (the identify ingress rejects loopback addresses); and the
    candidate-relay collection of the hole-punch coordinator likewise never
    returns an address whose IPv4 component is 127.0.0.1. -/
theorem relay_set_loopback_invariant (node0 : P2pNode) (steps : List NodeStep)
    (h0 : node0.relays = []) :
    (∀ p ∈ (run_node node0 steps).relays,
      find_ipv4 p.multiaddr ≠ some "127.0.0.1") ∧
    (∀ (parts : List String) (a : String), a ∈ collect_possible_relays parts →
      find_ipv4 a ≠ some "127.0.0.1") := by
  constructor
  · apply run_node_preserves_loopback_free
    intro q hq
    rw [h0] at hq
    exact absurd hq (List.not_mem_nil q)
  · intro parts a ha
    simp only [collect_possible_relays, List.mem_filter] at ha
    obtain ⟨-, hb⟩ := ha
    intro hEq
    rw [hEq] at hb
    simp at hb

/-- Witness for C7: after an identify event advertising the relay hop
    protocol with a loopback and a routable address, the routable address
    (the only one inserted into the relay set) is loopback-free. -/
theorem relay_set_loopback_invariant_witness :
    find_ipv4 "/ip4/9.9.9.9/tcp/4021" ≠ some "127.0.0.1" :=
  (relay_set_loopback_invariant
      ⟨"test-net", ⟨[], 1, true, 4021, ⟨6, 1, 6⟩⟩, [], "A", [], [], []⟩
      [NodeStep.event (NodeEvent.identifyReceived "R" "/ip4/8.8.8.8/tcp/1"
        ["/ip4/127.0.0.1/tcp/4001", "/ip4/9.9.9.9/tcp/4021"]
        ["/libp2p/circuit/relay/0.2.0/hop"])]
      rfl).1 ⟨"/ip4/9.9.9.9/tcp/4021", "R"⟩ (by decide)

/-- A successful relay-map lookup returns a peer of the local set with the
    looked-up multiaddress, or the accumulator value. -/
theorem relay_map_fold_some :
    ∀ (l : List Peer) (m : String) (acc : Option Peer) (p : Peer),
      l.foldl (fun acc peer => if peer.multiaddr = m then some peer else acc) acc =
        some p →
      (p ∈ l ∧ p.multiaddr = m) ∨ acc = some p := by
  intro l
  induction l with
  | nil => intro m acc p h; exact Or.inr h
  | cons q rest ih =>
      intro m acc p h
      simp only [List.foldl_cons] at h
      rcases ih m _ p h with h1 | h2
      · exact Or.inl ⟨List.mem_cons_of_mem q h1.1, h1.2⟩
      · by_cases hq : q.multiaddr = m
        · rw [if_pos hq] at h2
          have hpq : q = p := Option.some.inj h2
          exact Or.inl ⟨by rw [← hpq]; exact List.mem_cons_self q rest, by rw [← hpq]; exact hq⟩
        · rw [if_neg hq] at h2
          exact Or.inr h2

/-- The relay-map fold returns none exactly when the accumulator is none
    and no peer in the list carries the looked-up multiaddress. -/
theorem relay_map_fold_none :
    ∀ (l : List Peer) (m : String) (acc : Option Peer),
      (l.foldl (fun acc peer => if peer.multiaddr = m then some peer else acc) acc =
        none) ↔ (acc = none ∧ ∀ p ∈ l, p.multiaddr ≠ m) := by
  intro l
  induction l with
  | nil => intro m acc; simp
  | cons q rest ih =>
      intro m acc
      simp only [List.foldl_cons]
      rw [ih m _]
      by_cases hq : q.multiaddr = m
      · rw [if_pos hq]
        constructor
        · intro hcontra
          exact absurd hcontra.1 (Option.noConfusion)
        · intro hcontra
          exact absurd hq (hcontra.2 q (List.mem_cons_self q rest))
      · rw [if_neg hq]
        constructor
        · intro hc
          refine ⟨hc.1, ?_⟩
          intro p hp
          rcases List.mem_cons.mp hp with hpq | hp2
          · rw [hpq]; exact hq
          · exact hc.2 p hp2
        · intro hc
          exact ⟨hc.1, fun p hp => hc.2 p (List.mem_cons_of_mem q hp)⟩

/-- The components of compare_relay_lists are the filterMap by the relay
    map over the responded list and the filter of the unmatched entries,
    both preserving the responded order. -/
theorem compare_relay_lists_eq (my_relays : List Peer) :
    ∀ their_relays : List String,
      (compare_relay_lists my_relays their_relays).1 =
        their_relays.filterMap (relay_map_get my_relays) ∧
      (compare_relay_lists my_relays their_relays).2 =
        their_relays.filter
          (fun multiaddr => (relay_map_get my_relays multiaddr).isNone) := by
  intro their_relays
  induction their_relays with
  | nil => exact ⟨rfl, rfl⟩
  | cons multiaddr rest ih =>
      simp only [compare_relay_lists]
      cases hg : relay_map_get my_relays multiaddr with
      | some p =>
          simp only [hg, List.filterMap_cons, List.filter_cons, Option.isNone_some,
            Bool.false_eq_true, if_false]
          exact ⟨by rw [ih.1], by rw [ih.2]⟩
      | none =>
          simp only [hg, List.filterMap_cons, List.filter_cons, Option.isNone_none,
            if_true]
          exact ⟨by rw [ih.1], by rw [ih.2]⟩

/-- C8: compare_relay_lists returns as common relays exactly the entries of
    the responded list whose multiaddress is carried by some Peer of the
    local relay set, each replaced by that local Peer (hence paired with
    the local peer identity), and as relays-to-dial exactly the remaining
    entries, both preserving the responded order; the lookup
    characterizations make this precise, and the concrete instance
    my = [(a, pA)], theirs = [a, b] with a and b distinct returns
    common = [(a, pA)] and to_dial = [b]. -/
theorem compare_relay_lists_partition (my_relays : List Peer)
    (their_relays : List String) (a b pA : String) (hab : a ≠ b) :
    (compare_relay_lists my_relays their_relays).1 =
      their_relays.filterMap (relay_map_get my_relays) ∧
    (compare_relay_lists my_relays their_relays).2 =
      their_relays.filter
        (fun multiaddr => (relay_map_get my_relays multiaddr).isNone) ∧
    (∀ (m : String) (p : Peer), relay_map_get my_relays m = some p →
      p ∈ my_relays ∧ p.multiaddr = m) ∧
    (∀ m : String, relay_map_get my_relays m = none ↔
      ∀ p ∈ my_relays, p.multiaddr ≠ m) ∧
    compare_relay_lists [⟨a, pA⟩] [a, b] = ([⟨a, pA⟩], [b]) := by
  refine ⟨(compare_relay_lists_eq my_relays their_relays).1,
    (compare_relay_lists_eq my_relays their_relays).2, ?_, ?_, ?_⟩
  · intro m p h
    rcases relay_map_fold_some my_relays m none p h with h1 | h2
    · exact h1
    · exact Option.noConfusion h2
  · intro m
    unfold relay_map_get
    rw [relay_map_fold_none my_relays m none]
    simp
  · simp [compare_relay_lists, relay_map_get, hab]

/-- Witness for C8 at concrete addresses. -/
theorem compare_relay_lists_partition_witness :
    compare_relay_lists [⟨"/ip4/1.1.1.1/tcp/1", "PA"⟩]
        ["/ip4/1.1.1.1/tcp/1", "/ip4/2.2.2.2/tcp/2"] =
      ([⟨"/ip4/1.1.1.1/tcp/1", "PA"⟩], ["/ip4/2.2.2.2/tcp/2"]) :=
  (compare_relay_lists_partition [] [] "/ip4/1.1.1.1/tcp/1" "/ip4/2.2.2.2/tcp/2" "PA"
      (by decide)).2.2.2.2

/-- Stripping a concatenated marker recovers the remainder. -/
theorem stripPfx_append (p t : String) : stripPfx (p ++ t) p = some t := by
  obtain ⟨pd⟩ := p
  obtain ⟨td⟩ := t
  simp only [stripPfx]
  have hdata : (String.mk pd ++ String.mk td).data = pd ++ td := rfl
  rw [hdata]
  have hpre : pd.isPrefixOf (pd ++ td) = true := by
    rw [List.isPrefixOf_iff_prefix]
    exact List.prefix_append pd td
  rw [if_pos hpre, List.drop_left]

/-- C6 counterexample: with an empty RelaySet, the response published for a
    WANT RELAY FOR message naming this node is the marker, the node's peer
    id, and a trailing space (the format string always inserts the
    separating space), which is not equal to the marker followed by the
    peer id alone as the claim states. -/
theorem want_relay_response_trailing_space :
    handle_message ⟨"test-net", ⟨[], 1, true, 4021, ⟨6, 1, 6⟩⟩, [], "A", [], [], []⟩
        "WANT RELAY FOR A" = some "I HAVE RELAYS A " ∧
    ("I HAVE RELAYS A " : String) ≠ iHaveRelaysPfx ++ "A" := by
  constructor
  · decide
  · decide

/-- C6 (amended): on a WANT RELAY FOR message naming this node's own peer
    identity the node publishes the I HAVE RELAYS marker, its own peer id,
    a space, and the space-separated serialization of its RelaySet; when
    the RelaySet is empty the published response is the marker, the peer id
    and a trailing space; and a WANT RELAY FOR message naming a different
    peer id causes no publication. -/
theorem want_relay_response_behavior (node : P2pNode) (target : String) :
    handle_message node (wantRelayForPfx ++ node.localPeerId) =
      some (iHaveRelaysPfx ++ node.localPeerId ++ " " ++
        stringify_relays_multiaddr node.relays) ∧
    (node.relays = [] →
      handle_message node (wantRelayForPfx ++ node.localPeerId) =
        some (iHaveRelaysPfx ++ node.localPeerId ++ " ")) ∧
    (target ≠ node.localPeerId →
      handle_message node (wantRelayForPfx ++ target) = none) := by
  refine ⟨?_, ?_, ?_⟩
  · simp only [handle_message, stripPfx_append]
    rw [if_pos trivial]
  · intro hrel
    simp only [handle_message, stripPfx_append]
    rw [if_pos trivial, hrel]
    have hempty : stringify_relays_multiaddr [] = "" := by decide
    rw [hempty, String.append_empty]
  · intro hne
    simp only [handle_message, stripPfx_append]
    rw [if_neg (fun hcontra => hne hcontra.symm)]

/-- Witness for C6 at a concrete node with an empty RelaySet. -/
theorem want_relay_response_behavior_witness :
    handle_message ⟨"test-net", ⟨[], 1, true, 4021, ⟨6, 1, 6⟩⟩, [], "A", [], [], []⟩
        (wantRelayForPfx ++ "A") = some (iHaveRelaysPfx ++ "A" ++ " ") ∧
    handle_message ⟨"test-net", ⟨[], 1, true, 4021, ⟨6, 1, 6⟩⟩, [], "A", [], [], []⟩
        (wantRelayForPfx ++ "B") = none :=
  ⟨(want_relay_response_behavior
      ⟨"test-net", ⟨[], 1, true, 4021, ⟨6, 1, 6⟩⟩, [], "A", [], [], []⟩ "B").2.1 rfl,
    (want_relay_response_behavior
      ⟨"test-net", ⟨[], 1, true, 4021, ⟨6, 1, 6⟩⟩, [], "A", [], [], []⟩ "B").2.2
      (by decide)⟩

end Priory
